import Mathlib

/-!
Verification of the glucose-monitoring core (Event Store, insulin-decay
estimator, trend classifier, reading generator, alert engine, statistics
aggregator) of the Gluco_ai repository.

The TypeScript source is embedded shallowly: JavaScript numbers are modelled
as rationals (ℚ), `Date` timestamps as rationals counting milliseconds since
the epoch, class fields as explicit state passed to and returned from the
operations that touch them, and `Math.round` as the function `jsRound` below.
-/

namespace Glucos

/-- Trend symbols, from `TrendType` in `src/services/cgmSimulator.ts`. -/
inductive TrendType where
  | steady
  | up
  | down
  | double_up
  | double_down
deriving DecidableEq, Repr

/-- JavaScript `Math.round`: round half toward positive infinity,
i.e. `⌊x + 1/2⌋`. -/
def jsRound (q : ℚ) : ℤ := ⌊q + 1 / 2⌋

/-- The trend classifier's threshold chain on a rate in mg/dL per minute,
from `CGMSimulator.updateTrend` in `src/services/cgmSimulator.ts`. -/
def classifyRate (rate : ℚ) : TrendType :=
  if rate > 2 then TrendType.double_up
  else if rate > 1 then TrendType.up
  else if rate < -2 then TrendType.double_down
  else if rate < -1 then TrendType.down
  else TrendType.steady

/-- Function `CGMSimulator.updateTrend`: divides the 5-minute change by 5 to
get a per-minute rate and classifies it. -/
def updateTrend (change : ℚ) : TrendType := classifyRate (change / 5)

/-- Medication dose kinds, from the `MedicationLog` interface in
`src/services/dataStore.ts`. -/
inductive MedType where
  | basal
  | bolus
deriving DecidableEq, Repr

/-- A `MedicationLog` record; `timestamp` counts milliseconds since the
epoch, as `Date.getTime()` does. -/
structure MedicationLog where
  timestamp : ℚ
  type : MedType
  units : ℚ
  notes : Option String := none
deriving DecidableEq, Repr

/-- Hours elapsed between `now` and a timestamp `t` (both in milliseconds),
as computed inside `DataStore.getInsulinOnBoard`. -/
def hoursSince (now t : ℚ) : ℚ := (now - t) / (1000 * 60 * 60)

/-- Function `DataStore.getInsulinOnBoard`: keep bolus doses at most 5 hours
old and sum their linearly decayed remaining contributions. -/
def getInsulinOnBoard (now : ℚ) (medicationLogs : List MedicationLog) : ℚ :=
  let recentMeds := medicationLogs.filter fun m =>
    decide (hoursSince now m.timestamp ≤ 5) && decide (m.type = MedType.bolus)
  recentMeds.foldl
    (fun total med =>
      total + med.units * max 0 ((5 - hoursSince now med.timestamp) / 5)) 0

/-- Per-dose insulin-on-board contribution as the spec words it: a bolus dose
whose age is at most five hours contributes `units × max(0, (5 − age)/5)`;
basal doses and older bolus doses contribute exactly zero. -/
def iobContribution (now : ℚ) (m : MedicationLog) : ℚ :=
  if m.type = MedType.bolus ∧ hoursSince now m.timestamp ≤ 5 then
    m.units * max 0 ((5 - hoursSince now m.timestamp) / 5)
  else 0

/-- Alert severity tiers, as in the Guardian response schema
("critical" | "warning" | "normal"/none). -/
inductive Severity where
  | none
  | warning
  | critical
deriving DecidableEq, Repr

/-- The rationale tag attached to an alert verdict. -/
inductive AlertRationale where
  | hypoglycemia
  | hyperglycemia
  | warningZone
  | inRange
deriving DecidableEq, Repr

/-- An alert verdict: whether to alert, the severity tier, and a rationale. -/
structure AlertVerdict where
  alert : Bool
  severity : Severity
  rationale : AlertRationale
deriving DecidableEq, Repr

/-- Modelled from the spec: the Alert Engine decision table (first match wins,
most severe first). The repository has no executable decision function — the
Guardian (`supabase/functions/guardian/index.ts`) forwards `{bgl, trend,
insulinOnBoard}` to a hosted LLM whose prompt states exactly these criteria as
text ("Hypoglycemia Risk: BGL < 70 mg/dL or rapidly falling (double_down
trend)", "Hyperglycemia Risk: BGL > 250 mg/dL or rapidly rising (double_up
trend)", "Warning Zone: BGL 70-80 or 180-250 mg/dL") and parses its free-text
reply, so the table is modelled here from the spec's words. `iob` is advisory
context for the rationale only and does not enter the decision. -/
def evaluate (bgl : ℚ) (trend : TrendType) (iob : ℚ) : AlertVerdict :=
  if bgl < 70 ∨ trend = TrendType.double_down then
    ⟨true, Severity.critical, AlertRationale.hypoglycemia⟩
  else if 250 < bgl ∨ trend = TrendType.double_up then
    ⟨true, Severity.critical, AlertRationale.hyperglycemia⟩
  else if (70 ≤ bgl ∧ bgl < 80) ∨ (180 < bgl ∧ bgl ≤ 250) then
    ⟨true, Severity.warning, AlertRationale.warningZone⟩
  else
    ⟨false, Severity.none, AlertRationale.inRange⟩

/-- A `GlucoseReading` record from the `dataStore` module; `timestamp` counts
milliseconds since the epoch. The source stores `trend` as a string, but every
writer supplies one of the five `TrendType` values. -/
structure GlucoseReading where
  timestamp : ℚ
  bgl : ℚ
  trend : TrendType
  insulinOnBoard : ℚ
  notes : Option String := none
deriving DecidableEq, Repr

/-- A `MealLog` record, with the optional macro fields of the source
interface. -/
structure MealLog where
  timestamp : ℚ
  description : String
  carbs : Option ℚ := none
  protein : Option ℚ := none
  fat : Option ℚ := none
  insulinDose : Option ℚ := none
deriving DecidableEq, Repr

/-- The caller-supplied fields of `DataStore.addGlucoseReading` (the store
stamps the timestamp itself with `new Date()`). -/
structure ReadingInput where
  bgl : ℚ
  trend : TrendType
  insulinOnBoard : ℚ
  notes : Option String := none
deriving DecidableEq, Repr

/-- Function `DataStore.addGlucoseReading`: push the reading stamped `now`,
then `shift()` the oldest reading out if the stream holds more than 1000. -/
def addGlucoseReading (now : ℚ) (glucoseReadings : List GlucoseReading)
    (x : ReadingInput) : List GlucoseReading :=
  let pushed := glucoseReadings ++
    [⟨now, x.bgl, x.trend, x.insulinOnBoard, x.notes⟩]
  if 1000 < pushed.length then pushed.tail else pushed

/-- Window filter of `DataStore.getGlucoseReadings`: keep readings with
`timestamp ≥ now − hours·3,600,000 ms`. -/
def glucoseSince (now hours : ℚ) (l : List GlucoseReading) :
    List GlucoseReading :=
  l.filter fun r => decide (now - hours * (60 * 60 * 1000) ≤ r.timestamp)

/-- Window filter of `DataStore.getMealLogs`. -/
def mealsSince (now hours : ℚ) (l : List MealLog) : List MealLog :=
  l.filter fun m => decide (now - hours * (60 * 60 * 1000) ≤ m.timestamp)

/-- Window filter of `DataStore.getMedicationLogs`. -/
def medsSince (now hours : ℚ) (l : List MedicationLog) : List MedicationLog :=
  l.filter fun m => decide (now - hours * (60 * 60 * 1000) ≤ m.timestamp)

/-- The record returned by `DataStore.getStatistics`. -/
structure Statistics where
  avgBGL : ℤ
  timeInRange : ℤ
  timeAboveRange : ℤ
  timeBelowRange : ℤ
  hypoEvents : ℕ
  hyperEvents : ℕ
  readings : ℕ
  avgCarbs : ℤ
  totalInsulin : ℚ
deriving DecidableEq, Repr

/-- Function `DataStore.getStatistics`: window the three streams; if no
readings fall in the window return all zeros, else compute the rounded
average, the rounded time-in-range percentages, the event counts, the rounded
average carbs per meal, and total insulin rounded to one decimal. -/
def getStatistics (now hours : ℚ) (glucoseReadings : List GlucoseReading)
    (mealLogs : List MealLog) (medicationLogs : List MedicationLog) :
    Statistics :=
  let readings := glucoseSince now hours glucoseReadings
  let meals := mealsSince now hours mealLogs
  let meds := medsSince now hours medicationLogs
  if readings.length = 0 then ⟨0, 0, 0, 0, 0, 0, 0, 0, 0⟩
  else
    let total := (readings.map GlucoseReading.bgl).sum
    let avgBGL := total / (readings.length : ℚ)
    let inRange :=
      (readings.filter fun r => decide (70 ≤ r.bgl ∧ r.bgl ≤ 180)).length
    let aboveRange := (readings.filter fun r => decide (180 < r.bgl)).length
    let belowRange := (readings.filter fun r => decide (r.bgl < 70)).length
    let hypoEvents := (readings.filter fun r => decide (r.bgl < 70)).length
    let hyperEvents := (readings.filter fun r => decide (250 < r.bgl)).length
    let totalCarbs := (meals.map fun m => m.carbs.getD 0).sum
    let avgCarbs :=
      if 0 < meals.length then totalCarbs / (meals.length : ℚ) else 0
    let totalInsulin := (meds.map MedicationLog.units).sum
    ⟨jsRound avgBGL,
     jsRound ((inRange : ℚ) / (readings.length : ℚ) * 100),
     jsRound ((aboveRange : ℚ) / (readings.length : ℚ) * 100),
     jsRound ((belowRange : ℚ) / (readings.length : ℚ) * 100),
     hypoEvents, hyperEvents, readings.length,
     jsRound avgCarbs,
     (jsRound (totalInsulin * 10) : ℚ) / 10⟩

/-- Function `DataStore.importData`, restricted to the glucose stream: each
restored record is rebuilt in place with `new Date(r.timestamp)`, i.e. the
same timestamp, and the list replaces the stream wholesale. -/
def importGlucose (data : List GlucoseReading) : List GlucoseReading :=
  data.map fun r => { r with timestamp := r.timestamp }

/-- The simulator's mutable fields `currentBGL` and `currentTrend`. -/
structure SimState where
  currentBGL : ℚ
  currentTrend : TrendType
deriving DecidableEq, Repr

/-- Step 1 of `CGMSimulator.calculateChange`: the hour-of-day base drift;
`r` stands for the `Math.random()` sample in `[0, 1)`. -/
def baseDrift (hour : ℕ) (r : ℚ) : ℚ :=
  if 6 ≤ hour ∧ hour ≤ 8 then r * 3 + 1
  else if 12 ≤ hour ∧ hour ≤ 13 then r * 2
  else (r - 1 / 2) * 2

/-- Function `CGMSimulator.calculateChange` with the three `Math.random()`
samples and the store-derived inputs made explicit. -/
def calculateChange (hour : ℕ) (recentMeal : Bool) (iob currentBGL : ℚ)
    (r1 r2 r3 : ℚ) : ℚ :=
  let change := baseDrift hour r1
  let change := if recentMeal then change + (r2 * 5 + 2) else change
  let change := change - iob * (1 / 2)
  let change :=
    if 180 < currentBGL then change - 1
    else if currentBGL < 80 then change + 1
    else change
  change + (r3 - 1 / 2) * 2

/-- The clamp performed by `CGMSimulator.generateReading`:
`Math.max(40, Math.min(400, currentBGL + change))`. -/
def generateReadingValue (currentBGL change : ℚ) : ℚ :=
  max 40 (min 400 (currentBGL + change))

/-- Function `CGMSimulator.generateReading` up to the Guardian call: clamp
the new value into [40, 400], reclassify the trend from the change, and
append the rounded reading (with the current IOB snapshot) to the store. -/
def generateReading (now : ℚ) (sim : SimState) (iob change : ℚ)
    (store : List GlucoseReading) : SimState × List GlucoseReading :=
  let newBGL := generateReadingValue sim.currentBGL change
  let trend := updateTrend change
  (⟨newBGL, trend⟩,
   addGlucoseReading now store ⟨(jsRound newBGL : ℚ), trend, iob, none⟩)

/-- Function `CGMSimulator.addManualReading`: overwrite the simulator state
with the caller's values and append them to the store unmodified — no clamp,
no rounding. -/
def addManualReading (now : ℚ) (sim : SimState) (bgl : ℚ) (trend : TrendType)
    (insulinOnBoard : ℚ) (store : List GlucoseReading) :
    SimState × List GlucoseReading :=
  (⟨bgl, trend⟩, addGlucoseReading now store ⟨bgl, trend, insulinOnBoard, none⟩)

/-- The analysis object parsed from the Guardian collaborator's reply. -/
structure GuardianAnalysis where
  alert : Bool
  severity : Severity
  content : String
deriving DecidableEq, Repr

/-- The observable outcome of one full generation cycle. -/
structure CycleResult where
  sim : SimState
  store : List GlucoseReading
  callbackFired : Option (Severity × String)
  loggedErrors : List String
deriving DecidableEq, Repr

/-- Function `CGMSimulator.generateReading` in full: the reading is appended
before the Guardian call; the collaborator call's outcome (`Except.error`
models a thrown or rejected call) is handled inside the try/catch — an error
is logged via `console.error` and swallowed, so the cycle always returns
normally. -/
def generateReadingCycle (now : ℚ) (sim : SimState) (iob change : ℚ)
    (store : List GlucoseReading)
    (guardian : Except String GuardianAnalysis) : CycleResult :=
  let stepped := generateReading now sim iob change store
  match guardian with
  | Except.ok a =>
      ⟨stepped.1, stepped.2,
       if a.alert then some (a.severity, a.content) else none, []⟩
  | Except.error e => ⟨stepped.1, stepped.2, none, [e]⟩

end Glucos

namespace Glucos

/-- Folding `+ f x` over a list from an accumulator is the accumulator plus
the sum of the mapped list. -/
theorem foldl_add_map_sum {α : Type} (f : α → ℚ) (l : List α) (a : ℚ) :
    l.foldl (fun t x => t + f x) a = a + (l.map f).sum := by
  induction l generalizing a with
  | nil => simp
  | cons x xs ih => simp [List.foldl_cons, ih, add_assoc]

/-- Summing a mapped filter equals summing the map that sends filtered-out
elements to zero. -/
theorem sum_map_filter_eq_sum_ite {α : Type} (p : α → Bool) (f : α → ℚ)
    (l : List α) :
    ((l.filter p).map f).sum = (l.map fun x => if p x then f x else 0).sum := by
  induction l with
  | nil => simp
  | cons x xs ih =>
    by_cases hx : p x <;> simp [List.filter_cons, hx, ih]

/-- C1: the trend classifier implements the fixed cut points with boundary
values resolved toward the less severe bucket: `double_up` iff rate > 2,
`up` iff 1 < rate ≤ 2, `double_down` iff rate < −2, `down` iff −2 ≤ rate < −1,
`steady` otherwise; the boundary rates 1, 2, −1, −2 map to `steady`, `up`,
`steady`, `down`, and `updateTrend` is this classifier applied to change/5. -/
theorem trend_classifier_cut_points (r : ℚ) :
    (classifyRate r = TrendType.double_up ↔ 2 < r) ∧
    (classifyRate r = TrendType.up ↔ 1 < r ∧ r ≤ 2) ∧
    (classifyRate r = TrendType.double_down ↔ r < -2) ∧
    (classifyRate r = TrendType.down ↔ -2 ≤ r ∧ r < -1) ∧
    (classifyRate r = TrendType.steady ↔ -1 ≤ r ∧ r ≤ 1) ∧
    classifyRate 1 = TrendType.steady ∧
    classifyRate 2 = TrendType.up ∧
    classifyRate (-1) = TrendType.steady ∧
    classifyRate (-2) = TrendType.down ∧
    (∀ c : ℚ, updateTrend c = classifyRate (c / 5)) := by
  refine ⟨?_, ?_, ?_, ?_, ?_, by decide, by decide, by decide, by decide,
    fun c => rfl⟩ <;>
  · unfold classifyRate
    split_ifs with h1 h2 h3 h4 <;>
      simp only [reduceCtorEq, false_iff, true_iff, not_and, not_lt, not_le] <;>
      first
        | linarith
        | (exact ⟨by linarith, by linarith⟩)
        | (intro h; linarith)

/-- C2: for every dose history and every time, `getInsulinOnBoard` equals the
sum over all doses of the per-dose linear-decay contribution (bolus doses aged
at most five hours contribute `units × max(0, (5 − age)/5)`, basal doses and
older bolus doses contribute zero), and when every dose has nonnegative units
the result is nonnegative. -/
theorem iob_linear_decay_sum (now : ℚ) (logs : List MedicationLog) :
    getInsulinOnBoard now logs = (logs.map (iobContribution now)).sum ∧
    ((∀ m ∈ logs, 0 ≤ m.units) → 0 ≤ getInsulinOnBoard now logs) := by
  have heq : getInsulinOnBoard now logs = (logs.map (iobContribution now)).sum := by
    unfold getInsulinOnBoard
    rw [foldl_add_map_sum, zero_add, sum_map_filter_eq_sum_ite]
    congr 1
    apply List.map_congr_left
    intro m _
    by_cases h1 : hoursSince now m.timestamp ≤ 5 <;>
      by_cases h2 : m.type = MedType.bolus <;>
      simp [iobContribution, h1, h2]
  refine ⟨heq, fun hunits => ?_⟩
  rw [heq]
  apply List.sum_nonneg
  intro q hq
  rw [List.mem_map] at hq
  obtain ⟨m, hm, rfl⟩ := hq
  unfold iobContribution
  split_ifs with h
  · exact mul_nonneg (hunits m hm) (le_max_left 0 _)
  · exact le_refl 0

/-- C3: the alert decision function implements the fixed first-match decision
table — critical/hypoglycemia when bgl < 70 or trend is double_down, else
critical/hyperglycemia when bgl > 250 or trend is double_up, else warning when
70 ≤ bgl < 80 or 180 < bgl ≤ 250, else no alert; the spec's four examples
hold, and iob never changes the verdict. -/
theorem alert_engine_decision_table :
    evaluate 65 TrendType.steady 0 =
      ⟨true, Severity.critical, AlertRationale.hypoglycemia⟩ ∧
    evaluate 120 TrendType.steady 2 =
      ⟨false, Severity.none, AlertRationale.inRange⟩ ∧
    evaluate 260 TrendType.up 0 =
      ⟨true, Severity.critical, AlertRationale.hyperglycemia⟩ ∧
    evaluate 75 TrendType.steady 0 =
      ⟨true, Severity.warning, AlertRationale.warningZone⟩ ∧
    (∀ (bgl : ℚ) (trend : TrendType) (iob : ℚ),
      (evaluate bgl trend iob =
          ⟨true, Severity.critical, AlertRationale.hypoglycemia⟩ ↔
        bgl < 70 ∨ trend = TrendType.double_down) ∧
      (evaluate bgl trend iob =
          ⟨true, Severity.critical, AlertRationale.hyperglycemia⟩ ↔
        ¬(bgl < 70 ∨ trend = TrendType.double_down) ∧
          (250 < bgl ∨ trend = TrendType.double_up)) ∧
      (evaluate bgl trend iob =
          ⟨true, Severity.warning, AlertRationale.warningZone⟩ ↔
        ¬(bgl < 70 ∨ trend = TrendType.double_down) ∧
          ¬(250 < bgl ∨ trend = TrendType.double_up) ∧
          ((70 ≤ bgl ∧ bgl < 80) ∨ (180 < bgl ∧ bgl ≤ 250))) ∧
      ((evaluate bgl trend iob).alert = false ↔
        (evaluate bgl trend iob).severity = Severity.none)) ∧
    (∀ (bgl : ℚ) (trend : TrendType) (iob iob2 : ℚ),
      evaluate bgl trend iob = evaluate bgl trend iob2) := by
  refine ⟨by decide, by decide, by decide, by decide, ?_,
    fun bgl trend i i2 => rfl⟩
  intro bgl trend iob
  unfold evaluate
  split_ifs with h1 h2 h3 <;> refine ⟨?_, ?_, ?_, ?_⟩ <;> simp_all

/-- Concrete instance of C2: a single four-unit bolus taken at time 0,
evaluated one hour (3,600,000 ms) later. -/
theorem iob_linear_decay_sum_witness :
    getInsulinOnBoard 3600000 [⟨0, MedType.bolus, 4, none⟩] =
      (([⟨0, MedType.bolus, 4, none⟩] : List MedicationLog).map
        (iobContribution 3600000)).sum ∧
    (0 : ℚ) ≤ getInsulinOnBoard 3600000 [⟨0, MedType.bolus, 4, none⟩] := by
  have h := iob_linear_decay_sum 3600000 [⟨0, MedType.bolus, 4, none⟩]
  exact ⟨h.1, h.2 (by intro m hm; rw [List.mem_singleton] at hm; subst hm; norm_num)⟩

/-- Filtering readings by a predicate on their values counts the same as
filtering the value list itself. -/
theorem length_filter_on_bgl (L : List GlucoseReading) (p : ℚ → Bool) :
    (L.filter fun r => p r.bgl).length =
      ((L.map GlucoseReading.bgl).filter p).length := by
  induction L with
  | nil => rfl
  | cons r rs ih =>
    by_cases hr : p r.bgl <;>
      simp [List.filter_cons, hr, ih]

/-- Counterexample to C4: on the five readings 70, 100, 100, 190 and 300 the
aggregator returns timeInRange = 60 (the boundary 70 joins 100 and 100 in
range) and timeBelowRange = 0, not the claimed 40 and 20. -/
theorem statistics_example_window_counterexample :
    (getStatistics 0 168
        [⟨0, 70, TrendType.steady, 0, none⟩, ⟨0, 100, TrendType.steady, 0, none⟩,
         ⟨0, 100, TrendType.steady, 0, none⟩, ⟨0, 190, TrendType.steady, 0, none⟩,
         ⟨0, 300, TrendType.steady, 0, none⟩] [] []).timeInRange ≠ 40 ∧
    (getStatistics 0 168
        [⟨0, 70, TrendType.steady, 0, none⟩, ⟨0, 100, TrendType.steady, 0, none⟩,
         ⟨0, 100, TrendType.steady, 0, none⟩, ⟨0, 190, TrendType.steady, 0, none⟩,
         ⟨0, 300, TrendType.steady, 0, none⟩] [] []).timeBelowRange ≠ 20 := by
  constructor <;>
    norm_num [getStatistics, glucoseSince, mealsSince, medsSince, jsRound,
      List.filter]

/-- C4 amended: whenever the queried 7-day window holds exactly the five
readings 70, 100, 100, 190 and 300 mg/dL, the aggregator returns
timeInRange = 60 (the boundary reading 70 counts in range, bounds [70, 180]
inclusive), timeBelowRange = 0, timeAboveRange = 40, hypoEvents = 0 (no
reading < 70) and hyperEvents = 1 (only the 300 exceeds the stricter > 250
hyper threshold). -/
theorem statistics_example_window (now : ℚ) (glucose : List GlucoseReading)
    (meals : List MealLog) (meds : List MedicationLog)
    (h : (glucoseSince now 168 glucose).map GlucoseReading.bgl =
      [70, 100, 100, 190, 300]) :
    (getStatistics now 168 glucose meals meds).timeInRange = 60 ∧
    (getStatistics now 168 glucose meals meds).timeBelowRange = 0 ∧
    (getStatistics now 168 glucose meals meds).timeAboveRange = 40 ∧
    (getStatistics now 168 glucose meals meds).hypoEvents = 0 ∧
    (getStatistics now 168 glucose meals meds).hyperEvents = 1 := by
  have hlen : (glucoseSince now 168 glucose).length = 5 := by
    have h5 := congrArg List.length h
    simpa using h5
  have key : ∀ p : ℚ → Bool,
      ((glucoseSince now 168 glucose).filter fun r => p r.bgl).length =
        (([70, 100, 100, 190, 300] : List ℚ).filter p).length := by
    intro p
    rw [length_filter_on_bgl, h]
  have hin := key (fun b => decide (70 ≤ b) && decide (b ≤ 180))
  have habove := key (fun b => decide (180 < b))
  have hbelow := key (fun b => decide (b < 70))
  have hhyper := key (fun b => decide (250 < b))
  rw [show (([70, 100, 100, 190, 300] : List ℚ).filter
      fun b => decide (70 ≤ b) && decide (b ≤ 180)).length = 3 from by
    norm_num [List.filter]] at hin
  rw [show (([70, 100, 100, 190, 300] : List ℚ).filter
      fun b => decide (180 < b)).length = 2 from by
    norm_num [List.filter]] at habove
  rw [show (([70, 100, 100, 190, 300] : List ℚ).filter
      fun b => decide (b < 70)).length = 0 from by
    norm_num [List.filter]] at hbelow
  rw [show (([70, 100, 100, 190, 300] : List ℚ).filter
      fun b => decide (250 < b)).length = 1 from by
    norm_num [List.filter]] at hhyper
  refine ⟨?_, ?_, ?_, ?_, ?_⟩ <;>
    simp [getStatistics, hlen, hin, habove, hbelow, hhyper, jsRound] <;>
    norm_num

/-- Concrete instance of the amended C4: the five readings stored at time 0
and queried at time 0 over the 7-day window. -/
theorem statistics_example_window_witness :
    (getStatistics 0 168
        [⟨0, 70, TrendType.steady, 0, none⟩, ⟨0, 100, TrendType.steady, 0, none⟩,
         ⟨0, 100, TrendType.steady, 0, none⟩, ⟨0, 190, TrendType.steady, 0, none⟩,
         ⟨0, 300, TrendType.steady, 0, none⟩] [] []).timeInRange = 60 ∧
    (getStatistics 0 168
        [⟨0, 70, TrendType.steady, 0, none⟩, ⟨0, 100, TrendType.steady, 0, none⟩,
         ⟨0, 100, TrendType.steady, 0, none⟩, ⟨0, 190, TrendType.steady, 0, none⟩,
         ⟨0, 300, TrendType.steady, 0, none⟩] [] []).hyperEvents = 1 := by
  have h := statistics_example_window 0
    [⟨0, 70, TrendType.steady, 0, none⟩, ⟨0, 100, TrendType.steady, 0, none⟩,
     ⟨0, 100, TrendType.steady, 0, none⟩, ⟨0, 190, TrendType.steady, 0, none⟩,
     ⟨0, 300, TrendType.steady, 0, none⟩] [] []
    (by norm_num [glucoseSince, List.filter])
  exact ⟨h.1, h.2.2.2.2⟩

/-- Counterexample to C5: with no readings in the window, `getStatistics`
returns totalInsulin = 0 even though a 24-unit dose lies in the window; and
with a reading present, a 4.56-unit dose is reported as 4.6 (rounded to one
decimal), not as the exact sum. -/
theorem statistics_total_insulin_counterexample :
    (getStatistics 0 168 [] [] [⟨0, MedType.basal, 24, none⟩]).totalInsulin
      = 0 ∧
    (0 : ℚ) ≠ 24 ∧
    (getStatistics 0 168 [⟨0, 100, TrendType.steady, 0, none⟩] []
        [⟨0, MedType.bolus, 114 / 25, none⟩]).totalInsulin = 23 / 5 ∧
    (23 / 5 : ℚ) ≠ 114 / 25 := by
  refine ⟨by simp [getStatistics, glucoseSince], by norm_num, ?_, by norm_num⟩
  norm_num [getStatistics, glucoseSince, mealsSince, medsSince, jsRound,
    List.filter]

/-- C5 amended: when the window holds at least one glucose reading,
totalInsulin is the sum of units over all medication doses of both kinds in
the window, rounded to one decimal place; when the window holds no readings,
totalInsulin is 0 regardless of the doses present. -/
theorem statistics_total_insulin (now hours : ℚ)
    (glucose : List GlucoseReading) (meals : List MealLog)
    (meds : List MedicationLog) :
    ((glucoseSince now hours glucose).length ≠ 0 →
      (getStatistics now hours glucose meals meds).totalInsulin =
        (jsRound (((medsSince now hours meds).map MedicationLog.units).sum * 10) : ℚ)
          / 10) ∧
    ((glucoseSince now hours glucose).length = 0 →
      (getStatistics now hours glucose meals meds).totalInsulin = 0) := by
  constructor <;> intro h0 <;> simp [getStatistics, h0]

/-- Concrete instance of the amended C5: one reading and one 24-unit basal
dose in the window, and the empty store. -/
theorem statistics_total_insulin_witness :
    (getStatistics 0 168 [⟨0, 100, TrendType.steady, 0, none⟩] []
        [⟨0, MedType.basal, 24, none⟩]).totalInsulin =
      (jsRound (((medsSince 0 168 [⟨0, MedType.basal, 24, none⟩]).map
        MedicationLog.units).sum * 10) : ℚ) / 10 ∧
    (getStatistics 0 168 [] [] [⟨0, MedType.basal, 24, none⟩]).totalInsulin
      = 0 := by
  refine ⟨(statistics_total_insulin 0 168 [⟨0, 100, TrendType.steady, 0, none⟩]
    [] [⟨0, MedType.basal, 24, none⟩]).1 (by norm_num [glucoseSince, List.filter]),
    (statistics_total_insulin 0 168 [] [] [⟨0, MedType.basal, 24, none⟩]).2 rfl⟩

/-- One append keeps the glucose stream within the 1000-reading bound. -/
theorem addGlucoseReading_length_le (now : ℚ) (s : List GlucoseReading)
    (x : ReadingInput) (hs : s.length ≤ 1000) :
    (addGlucoseReading now s x).length ≤ 1000 := by
  simp only [addGlucoseReading]
  split_ifs with hlen <;> simp_all [List.length_tail]

/-- C6: starting within the retention bound, after every sequence of appends
the glucose stream holds at most 1000 readings; an append at capacity evicts
exactly the oldest reading (the list head) and appends the new one at the
back, an append under capacity deletes nothing, and a windowed query never
returns more than 1000 readings. -/
theorem glucose_retention_bound (init : List GlucoseReading)
    (appends : List (ℚ × ReadingInput)) (now hours : ℚ)
    (hinit : init.length ≤ 1000) :
    (appends.foldl (fun s p => addGlucoseReading p.1 s p.2) init).length
      ≤ 1000 ∧
    (∀ (t : ℚ) (s : List GlucoseReading) (x : ReadingInput),
      s.length = 1000 →
      addGlucoseReading t s x =
        s.tail ++ [⟨t, x.bgl, x.trend, x.insulinOnBoard, x.notes⟩]) ∧
    (∀ (t : ℚ) (s : List GlucoseReading) (x : ReadingInput),
      s.length < 1000 →
      addGlucoseReading t s x =
        s ++ [⟨t, x.bgl, x.trend, x.insulinOnBoard, x.notes⟩]) ∧
    (glucoseSince now hours
        (appends.foldl (fun s p => addGlucoseReading p.1 s p.2) init)).length
      ≤ 1000 := by
  have hfold : ∀ (l : List (ℚ × ReadingInput)) (s : List GlucoseReading),
      s.length ≤ 1000 →
      (l.foldl (fun s p => addGlucoseReading p.1 s p.2) s).length ≤ 1000 := by
    intro l
    induction l with
    | nil => intro s hs; simpa using hs
    | cons p ps ih =>
      intro s hs
      exact ih _ (addGlucoseReading_length_le p.1 s p.2 hs)
  refine ⟨hfold appends init hinit, ?_, ?_, ?_⟩
  · intro t s x hs
    unfold addGlucoseReading
    rw [if_pos (by simp [hs])]
    cases s with
    | nil => simp at hs
    | cons a as => simp
  · intro t s x hs
    unfold addGlucoseReading
    rw [if_neg (by simp; omega)]
  · calc (glucoseSince now hours
          (appends.foldl (fun s p => addGlucoseReading p.1 s p.2) init)).length
        ≤ (appends.foldl (fun s p => addGlucoseReading p.1 s p.2) init).length :=
          List.length_filter_le _ _
      _ ≤ 1000 := hfold appends init hinit

/-- Concrete instance of C6: a single append to the empty store. -/
theorem glucose_retention_bound_witness :
    ([((0 : ℚ), (⟨120, TrendType.steady, 0, none⟩ : ReadingInput))].foldl
      (fun s p => addGlucoseReading p.1 s p.2) []).length ≤ 1000 := by
  exact (glucose_retention_bound []
    [((0 : ℚ), (⟨120, TrendType.steady, 0, none⟩ : ReadingInput))] 0 0
    (by simp)).1

/-- Counterexample to C7: hour 5 lies inside the claimed 05:00–08:00 dawn
window, yet with PRNG sample 0 the base drift is −1 — the symmetric-noise
branch, not a strictly positive dawn drift. -/
theorem dawn_drift_counterexample :
    baseDrift 5 0 = -1 ∧ ¬(0 < baseDrift 5 0) := by
  norm_num [baseDrift]

/-- C7 amended: the generator's dawn branch covers hours 6 through 8; there
the base drift is `r·3 + 1`, strictly positive for every nonnegative PRNG
sample, while at hour 5 the drift is the small symmetric-noise term
`(r − 1/2)·2`, which can be negative. -/
theorem dawn_drift (hour : ℕ) (r : ℚ) (h6 : 6 ≤ hour) (h8 : hour ≤ 8)
    (hr : 0 ≤ r) :
    0 < baseDrift hour r ∧ baseDrift hour r = r * 3 + 1 ∧
    (∀ q : ℚ, baseDrift 5 q = (q - 1 / 2) * 2) := by
  unfold baseDrift
  rw [if_pos ⟨h6, h8⟩]
  exact ⟨by linarith, rfl, fun q => by norm_num⟩

/-- Concrete instance of the amended C7: hour 6 with PRNG sample 0. -/
theorem dawn_drift_witness : 0 < baseDrift 6 0 :=
  (dawn_drift 6 0 (by norm_num) (by norm_num) (by norm_num)).1

/-- Counterexample to C8: a manual entry of 500 mg/dL is appended to the
store unclamped, outside the claimed domain [40, 400]. -/
theorem manual_reading_counterexample :
    ((addManualReading 0 ⟨120, TrendType.steady⟩ 500 TrendType.steady 0
        []).2.map GlucoseReading.bgl) = [500] ∧
    ¬((500 : ℚ) ≤ 400) := by
  exact ⟨rfl, by norm_num⟩

/-- C8 amended: every reading appended by the periodic generation cycle has
an integer value in [40, 400] — the generator clamps into [40, 400] and then
rounds, and appends exactly that rounded value; manual entries bypass the
clamp and are appended with the caller's value unmodified. -/
theorem generated_reading_clamped (now : ℚ) (sim : SimState)
    (iob change : ℚ) (store : List GlucoseReading) :
    (generateReading now sim iob change store).2 =
      addGlucoseReading now store
        ⟨(jsRound (generateReadingValue sim.currentBGL change) : ℚ),
         updateTrend change, iob, none⟩ ∧
    40 ≤ jsRound (generateReadingValue sim.currentBGL change) ∧
    jsRound (generateReadingValue sim.currentBGL change) ≤ 400 ∧
    (∀ (bgl : ℚ) (trend : TrendType) (snapIob : ℚ),
      (addManualReading now sim bgl trend snapIob store).2 =
        addGlucoseReading now store ⟨bgl, trend, snapIob, none⟩) := by
  have hlo : (40 : ℚ) ≤ generateReadingValue sim.currentBGL change :=
    le_max_left _ _
  have hhi : generateReadingValue sim.currentBGL change ≤ 400 :=
    max_le (by norm_num) (min_le_left _ _)
  refine ⟨rfl, ?_, ?_, fun bgl trend snapIob => rfl⟩
  · rw [jsRound, Int.le_floor]
    push_cast
    linarith
  · have hlt : jsRound (generateReadingValue sim.currentBGL change) < 401 := by
      rw [jsRound, Int.floor_lt]
      push_cast
      linarith
    omega

/-- Counterexample to C9: restoring 1001 readings leaves all 1001 in the
store — `importData` does not truncate to the newest 1000. -/
theorem import_retention_counterexample :
    (importGlucose
      (List.replicate 1001 ⟨0, 100, TrendType.steady, 0, none⟩)).length
      = 1001 ∧
    (1001 : ℕ) ≠ 1000 := by
  constructor
  · simp only [importGlucose, List.length_map, List.length_replicate]
  · norm_num

/-- C9 amended: `importData` reconstructs the glucose stream exactly — every
event keeps its original timestamp and the original order — but the retention
bound is not reapplied: a restored stream longer than 1000 readings is kept
whole. -/
theorem import_preserves_events (data : List GlucoseReading) :
    importGlucose data = data ∧
    (1000 < data.length → 1000 < (importGlucose data).length) := by
  have hid : importGlucose data = data := by
    unfold importGlucose
    have hfun : (fun r : GlucoseReading => { r with timestamp := r.timestamp })
        = id := by
      funext r
      rfl
    rw [hfun, List.map_id]
  exact ⟨hid, fun h => by rwa [hid]⟩

/-- Concrete instance of the amended C9: restoring 1001 identical readings
keeps all of them. -/
theorem import_preserves_events_witness :
    1000 <
      (importGlucose
        (List.replicate 1001 ⟨0, 100, TrendType.steady, 0, none⟩)).length :=
  (import_preserves_events
    (List.replicate 1001 ⟨0, 100, TrendType.steady, 0, none⟩)).2
    (by rw [List.length_replicate]; norm_num)

/-- C10: when the Guardian/notification collaborator call fails, the cycle
still appends the newly generated reading (the resulting store equals the one
produced for any collaborator outcome), the failure is recorded in the local
log, no alert callback fires, and the cycle returns normally — its result
type carries no error to the caller. -/
theorem guardian_failure_swallowed (now : ℚ) (sim : SimState)
    (iob change : ℚ) (store : List GlucoseReading) (e : String) :
    (generateReadingCycle now sim iob change store (Except.error e)).store =
      (generateReading now sim iob change store).2 ∧
    (∀ g : Except String GuardianAnalysis,
      (generateReadingCycle now sim iob change store g).store =
        (generateReading now sim iob change store).2 ∧
      (generateReadingCycle now sim iob change store g).sim =
        (generateReading now sim iob change store).1) ∧
    (generateReadingCycle now sim iob change store
      (Except.error e)).loggedErrors = [e] ∧
    (generateReadingCycle now sim iob change store
      (Except.error e)).callbackFired = Option.none := by
  refine ⟨rfl, fun g => ?_, rfl, rfl⟩
  cases g <;> exact ⟨rfl, rfl⟩

end Glucos
